import Mathlib

/-!
Shallow embedding of the deployment-mcp-server request dispatcher.

The authoritative dispatcher is `api/mcp.ts` (the "Proper Streamable HTTP MCP
Server"): its default-exported `handler` processes POST requests carrying a
JSON-RPC envelope `{method, params, id}`, routes on `method`
(`initialize`, `tools/list`, `tools/call`), performs at most two outbound
provider HTTP calls per invocation, and renders every outcome as a
`{jsonrpc, result|error, id}` envelope with HTTP status 200.

Modelling choices, each mirroring the TypeScript source:
  * JavaScript `undefined` for an absent field is `Option.none`.
  * JavaScript truthiness on strings (`!token`, `!serviceId`, `gitRepo ?`)
    is `jsTruthyS`: `none` and `some ""` are falsy.
  * A thrown `Error` is the `Except.error` channel carrying a `Failure`
    value; `Failure.message` reproduces the exact `error.message` string the
    catch block reads.
  * The network is an oracle (`World`): each provider operation is a field
    returning either the parsed response data or the raw error message that
    the API-client class would wrap.  Every outbound call is recorded in a
    trace (`List ProviderCall`), whether it succeeds or fails.
  * An unparsable request body is `body = none`; destructuring it throws a
    TypeError, caught by the dispatcher's catch block.
  * `new Date(x).toLocaleString()` is environment-dependent formatting of a
    timestamp; it is modelled as the identity on the raw timestamp string
    (no claim depends on the rendered date text).
  * `uuidv4()` is modelled as an explicit generator value `gen` passed to
    the handler by the environment.
-/

/-- A JSON-RPC request id: a number, a string, or JSON null. -/
inductive RpcId where
  | num (n : Int)
  | str (s : String)
  | null
deriving DecidableEq

/-- JavaScript truthiness of an optional string: `undefined` and `""` are falsy. -/
def jsTruthyS : Option String → Bool
  | none => false
  | some s => decide (s ≠ "")

/-- JavaScript truthiness of a JSON-RPC id value: `null`, `0` and `""` are falsy. -/
def jsTruthyId : RpcId → Bool
  | RpcId.num n => decide (n ≠ 0)
  | RpcId.str s => decide (s ≠ "")
  | RpcId.null => false

/-- JavaScript string interpolation of a possibly-undefined string value. -/
def showOptJs : Option String → String
  | none => "undefined"
  | some s => s

/-- JavaScript `x || dflt` on an optional string: the default replaces falsy values. -/
def jsOrS (o : Option String) (dflt : String) : String :=
  if jsTruthyS o then showOptJs o else dflt

/-- Date rendering `new Date(x).toLocaleString()`, modelled as identity on the
raw timestamp string (environment-dependent formatting, not claim-relevant). -/
def jsDateLocaleString (s : String) : String := s

/-- The `gitSource` object built by the deploy-vercel branch. -/
structure GitSource where
  gtype : String
  repo : Option String
  ref : String
deriving DecidableEq

/-- Parsed Vercel deployment data as read by the handlers
(`id`, `url`, `readyState`, `target`, `createdAt`). -/
structure VercelDeployment where
  id : String
  url : String
  readyState : Option String
  target : Option String
  createdAt : String
deriving DecidableEq

/-- Parsed Render deploy data as read by the handlers
(`id`, `status`, `createdAt`, `type`, `finishedAt`). -/
structure RenderDeploy where
  id : String
  status : Option String
  createdAt : String
  dtype : Option String
  finishedAt : Option String
deriving DecidableEq

/-- One entry of the Render `getServices` response as read by the handlers
(`id`, `name`, `type`, `serviceDetails?.buildCommand`). -/
structure RenderService where
  id : String
  name : String
  stype : String
  buildCommand : Option String
deriving DecidableEq

/-- One outbound provider HTTP call, as recorded in the call trace. -/
inductive ProviderCall where
  | vercelCreate (projectName : Option String) (gitSource : Option GitSource)
  | renderTrigger (serviceId : Option String)
  | renderList
  | vercelStatus (id : String)
  | renderStatus (id : String)
deriving DecidableEq

/-- The provider network, as an oracle: each operation either returns parsed
response data or the raw failure message that the API-client wraps. -/
structure World where
  vercelCreate : Option String → Option GitSource → Except String VercelDeployment
  renderTrigger : Option String → Except String RenderDeploy
  renderList : Except String (List RenderService)
  vercelStatus : String → Except String VercelDeployment
  renderStatus : String → Except String RenderDeploy

/-- A handler-level thrown failure.  `message` below reproduces the exact
`error.message` string that the dispatcher's catch block renders. -/
inductive Failure where
  | missingCredential (tokenName : String)
  | unknownTool (name : Option String)
  | unknownMethod (m : Option String)
  | malformedBody
  | malformedParams
  | malformedArgs
  | providerError (msg : String)
  | notFound (serviceName : String)
deriving DecidableEq

/-- The `error.message` string of each thrown failure, exactly as the
TypeScript code builds it. -/
def Failure.message : Failure → String
  | Failure.missingCredential t => t ++ " environment variable is required"
  | Failure.unknownTool n => "Unknown tool: " ++ showOptJs n
  | Failure.unknownMethod m => "Unknown method: " ++ showOptJs m
  | Failure.malformedBody =>
      "Cannot destructure property 'method' of 'req.body' as it is undefined."
  | Failure.malformedParams =>
      "Cannot destructure property 'name' of 'params' as it is undefined."
  | Failure.malformedArgs =>
      "Cannot destructure property 'projectName' of 'args' as it is undefined."
  | Failure.providerError msg => msg
  | Failure.notFound sn => "Service \"" ++ sn ++ "\" not found"

/-- `VercelAPI.createDeployment`: one POST to `/v13/deployments`; a failure is
rethrown wrapped as `Vercel deployment failed: ...`. -/
def VercelAPI.createDeployment (w : World) (projectName : Option String)
    (gitSource : Option GitSource) :
    Except Failure VercelDeployment × List ProviderCall :=
  (match w.vercelCreate projectName gitSource with
    | Except.ok d => Except.ok d
    | Except.error m => Except.error (Failure.providerError ("Vercel deployment failed: " ++ m)),
   [ProviderCall.vercelCreate projectName gitSource])

/-- `VercelAPI.getDeploymentStatus`: one GET to `/v6/deployments/:id`; a failure
is rethrown wrapped as `Failed to get Vercel deployment status: ...`. -/
def VercelAPI.getDeploymentStatus (w : World) (id : String) :
    Except Failure VercelDeployment × List ProviderCall :=
  (match w.vercelStatus id with
    | Except.ok d => Except.ok d
    | Except.error m =>
        Except.error (Failure.providerError ("Failed to get Vercel deployment status: " ++ m)),
   [ProviderCall.vercelStatus id])

/-- `RenderAPI.triggerDeployment`: one POST to `/services/:id/deploys`; a
failure is rethrown wrapped as `Render deployment failed: ...`. -/
def RenderAPI.triggerDeployment (w : World) (serviceId : Option String) :
    Except Failure RenderDeploy × List ProviderCall :=
  (match w.renderTrigger serviceId with
    | Except.ok d => Except.ok d
    | Except.error m => Except.error (Failure.providerError ("Render deployment failed: " ++ m)),
   [ProviderCall.renderTrigger serviceId])

/-- `RenderAPI.getServices`: one GET to `/services`; a failure is rethrown
wrapped as `Failed to get Render services: ...`. -/
def RenderAPI.getServices (w : World) :
    Except Failure (List RenderService) × List ProviderCall :=
  (match w.renderList with
    | Except.ok ss => Except.ok ss
    | Except.error m =>
        Except.error (Failure.providerError ("Failed to get Render services: " ++ m)),
   [ProviderCall.renderList])

/-- `RenderAPI.getDeploymentStatus`: one GET to `/services/:id/deploys?limit=1`;
a failure is rethrown wrapped as `Failed to get Render deployment status: ...`. -/
def RenderAPI.getDeploymentStatus (w : World) (id : String) :
    Except Failure RenderDeploy × List ProviderCall :=
  (match w.renderStatus id with
    | Except.ok d => Except.ok d
    | Except.error m =>
        Except.error (Failure.providerError ("Failed to get Render deployment status: " ++ m)),
   [ProviderCall.renderStatus id])

/-- Process environment configuration: the two provider tokens. -/
structure Env where
  vercelToken : Option String
  renderToken : Option String
deriving DecidableEq

/-- The `arguments` object of a tools/call request; every field the handlers
destructure is optional (absent = JavaScript undefined). -/
structure ToolArgs where
  projectName : Option String
  gitRepo : Option String
  branch : Option String
  serviceId : Option String
  serviceName : Option String
  platform : Option String
  depId : Option String
deriving DecidableEq

/-- The `params` object of a JSON-RPC request: `{name, arguments}`. -/
structure Params where
  name : Option String
  arguments : Option ToolArgs
deriving DecidableEq

/-- A parsed JSON-RPC request body `{method, params, id}`. -/
structure ReqBody where
  method : Option String
  params : Option Params
  id : Option RpcId
deriving DecidableEq

/-- An inbound POST request: the `mcp-session-id` header and the parsed body
(`none` = the body was unparsable / undefined, so destructuring it throws). -/
structure McpRequest where
  sessionId : Option String
  body : Option ReqBody
deriving DecidableEq

/-- One property entry of a tool descriptor's input schema. -/
structure SchemaProp where
  pname : String
  ptype : String
  pdefault : Option String
deriving DecidableEq

/-- One tool descriptor as returned by the tools/list branch. -/
structure ToolDescriptor where
  name : String
  description : String
  properties : List SchemaProp
  required : List String
deriving DecidableEq

/-- The literal tool list of the tools/list branch of `api/mcp.ts`. -/
def mcpToolDescriptors : List ToolDescriptor :=
  [⟨"deploy-vercel", "Deploy projects to Vercel",
    [⟨"projectName", "string", none⟩,
     ⟨"gitRepo", "string", none⟩,
     ⟨"branch", "string", some "main"⟩],
    ["projectName"]⟩,
   ⟨"deploy-render", "Deploy services to Render",
    [⟨"serviceId", "string", none⟩,
     ⟨"serviceName", "string", none⟩],
    ["serviceId"]⟩]

/-- The result payload of a successful POST envelope. -/
inductive RpcResult where
  | initialized
  | toolsList (tools : List ToolDescriptor)
  | content (text : String)
deriving DecidableEq

/-- The structured error object of an error envelope: `{code, message}`. -/
structure RpcError where
  code : Int
  message : String
deriving DecidableEq

/-- The outbound response as observed by the transport layer: HTTP status,
the envelope fields (`id = none` means the JSON field is absent because the
echoed value was undefined), and the `Mcp-Session-Id` response header. -/
structure PostResponse where
  status : Nat
  jsonrpc : String
  result : Option RpcResult
  error : Option RpcError
  id : Option RpcId
  mcpSessionHeader : Option String
deriving DecidableEq

/-- Success text of the deploy-vercel branch of `api/mcp.ts`. -/
def vercelSuccessText (d : VercelDeployment) : String :=
  let st := jsOrS d.readyState "BUILDING"
  let tg := showOptJs d.target
  "✅ Vercel deployment started!\n\n" ++
  "🆔 Deployment ID: " ++ d.id ++ "\n" ++
  "🔗 URL: https://" ++ d.url ++ "\n" ++
  "📊 Status: " ++ st ++ "\n" ++
  "🌟 Target: " ++ tg ++ "\n\n" ++
  "⏱️ Check status with deployment ID: " ++ d.id

/-- Success text of the deploy-render branch of `api/mcp.ts`. -/
def renderSuccessText (d : RenderDeploy) (actualServiceId : Option String) : String :=
  let sid := showOptJs actualServiceId
  let st := showOptJs d.status
  let created := jsDateLocaleString d.createdAt
  "✅ Render deployment started!\n\n" ++
  "🆔 Deployment ID: " ++ d.id ++ "\n" ++
  "🔗 Service ID: " ++ sid ++ "\n" ++
  "📊 Status: " ++ st ++ "\n" ++
  "🕐 Created: " ++ created ++ "\n"

/-- The deploy-render service-name resolution step (`api/mcp.ts` lines
226-235): when `serviceId` is falsy and `serviceName` truthy, fetch the
service list and resolve the exact-matching name to its id, failing with
`Service "..." not found` when no entry matches; otherwise pass `serviceId`
through untouched with no call. -/
def resolveServiceId (w : World) (serviceId serviceName : Option String) :
    Except Failure (Option String) × List ProviderCall :=
  if !(jsTruthyS serviceId) && jsTruthyS serviceName then
    let sn := serviceName.getD ""
    match RenderAPI.getServices w with
    | (Except.error f, tr) => (Except.error f, tr)
    | (Except.ok services, tr) =>
      match services.find? (fun s => s.name == sn) with
      | none => (Except.error (Failure.notFound sn), tr)
      | some svc => (Except.ok (some svc.id), tr)
  else (Except.ok serviceId, [])

/-- The tools/call branch of the `api/mcp.ts` POST handler (lines 178-256):
destructure `params`, dispatch on the tool name (only deploy-vercel and
deploy-render exist), check the platform token, perform the provider calls,
and either return the rendered text content or rethrow the failure. -/
def toolsCall (env : Env) (w : World) (p : Option Params) :
    Except Failure RpcResult × List ProviderCall :=
  match p with
  | none => (Except.error Failure.malformedParams, [])
  | some params =>
    if params.name = some "deploy-vercel" then
      match params.arguments with
      | none => (Except.error Failure.malformedArgs, [])
      | some args =>
        if !(jsTruthyS env.vercelToken) then
          (Except.error (Failure.missingCredential "VERCEL_TOKEN"), [])
        else
          let branch := args.branch.getD "main"
          let gitSource : Option GitSource :=
            if jsTruthyS args.gitRepo then some ⟨"github", args.gitRepo, branch⟩ else none
          match VercelAPI.createDeployment w args.projectName gitSource with
          | (Except.ok d, tr) => (Except.ok (RpcResult.content (vercelSuccessText d)), tr)
          | (Except.error f, tr) => (Except.error f, tr)
    else if params.name = some "deploy-render" then
      match params.arguments with
      | none => (Except.error Failure.malformedArgs, [])
      | some args =>
        if !(jsTruthyS env.renderToken) then
          (Except.error (Failure.missingCredential "RENDER_TOKEN"), [])
        else
          match resolveServiceId w args.serviceId args.serviceName with
          | (Except.error f, tr) => (Except.error f, tr)
          | (Except.ok actualServiceId, tr) =>
            match RenderAPI.triggerDeployment w actualServiceId with
            | (Except.ok d, tr2) =>
                (Except.ok (RpcResult.content (renderSuccessText d actualServiceId)), tr ++ tr2)
            | (Except.error f, tr2) => (Except.error f, tr ++ tr2)
    else (Except.error (Failure.unknownTool params.name), [])

/-- The body of the POST try-block of `api/mcp.ts` (lines 121-258): destructure
the body (throwing when it is undefined), then route on `method`; an
unrecognized method throws `Unknown method: ...`.  The returned pair carries
the successful result together with the echoed `id`, or the thrown failure,
plus the provider-call trace. -/
def postCore (env : Env) (w : World) (body : Option ReqBody) :
    Except Failure (RpcResult × Option RpcId) × List ProviderCall :=
  match body with
  | none => (Except.error Failure.malformedBody, [])
  | some b =>
    if b.method = some "initialize" then
      (Except.ok (RpcResult.initialized, b.id), [])
    else if b.method = some "tools/list" then
      (Except.ok (RpcResult.toolsList mcpToolDescriptors, b.id), [])
    else if b.method = some "tools/call" then
      match toolsCall env w b.params with
      | (Except.ok r, tr) => (Except.ok ((r, b.id)), tr)
      | (Except.error f, tr) => (Except.error f, tr)
    else (Except.error (Failure.unknownMethod b.method), [])

/-- The catch block's id computation `req.body?.id || null`: JavaScript `||`
collapses a falsy id (absent, null, 0, "") to null. -/
def errorRespId (body : Option ReqBody) : RpcId :=
  match body with
  | none => RpcId.null
  | some b =>
    match b.id with
    | some i => if jsTruthyId i then i else RpcId.null
    | none => RpcId.null

/-- The full POST branch of the `api/mcp.ts` handler (lines 112-272):
mint a session id when the request header is absent (surfacing it in the
`Mcp-Session-Id` response header), run the try-block, and render exactly one
of result/error into a status-200 envelope; the catch block renders the
thrown failure's message with the constant code -32000 and id
`req.body?.id || null`. -/
def postHandler (env : Env) (w : World) (gen : String) (req : McpRequest) :
    PostResponse × List ProviderCall :=
  let sessionHeader : Option String :=
    if jsTruthyS req.sessionId then none else some gen
  let out := postCore env w req.body
  match out.fst with
  | Except.ok (r, i) =>
      (⟨200, "2.0", some r, none, i, sessionHeader⟩, out.snd)
  | Except.error f =>
      (⟨200, "2.0", none, some ⟨-32000, f.message⟩, some (errorRespId req.body), sessionHeader⟩,
       out.snd)

/-- The response part of the POST handler's outcome. -/
def postResp (env : Env) (w : World) (gen : String) (req : McpRequest) : PostResponse :=
  (postHandler env w gen req).fst

/-- The outbound provider-call trace of the POST handler's outcome. -/
def postTrace (env : Env) (w : World) (gen : String) (req : McpRequest) : List ProviderCall :=
  (postHandler env w gen req).snd

/-- Status text of the check-deployment-status vercel branch of the SDK server
(src/unnamed/part_000 lines 651-674). -/
def vercelStatusText (d : VercelDeployment) : String :=
  let st := showOptJs d.readyState
  let tg := showOptJs d.target
  let created := jsDateLocaleString d.createdAt
  let suffix :=
    if d.readyState = some "READY" then "\n✅ Deployment is LIVE and ready!"
    else if d.readyState = some "ERROR" then "\n❌ Deployment failed"
    else "\n⏳ Deployment is still in progress..."
  "📊 Deployment Status - VERCEL\n\n" ++
  "🆔 Deployment ID: " ++ d.id ++ "\n" ++
  "🔗 URL: https://" ++ d.url ++ "\n" ++
  "📊 Status: " ++ st ++ "\n" ++
  "🌟 Target: " ++ tg ++ "\n" ++
  "🕐 Created: " ++ created ++ "\n" ++ suffix

/-- Status text of the check-deployment-status render branch of the SDK server
(src/unnamed/part_000 lines 676-701). -/
def renderStatusText (d : RenderDeploy) (id : String) : String :=
  let st := showOptJs d.status
  let ty := showOptJs d.dtype
  let created := jsDateLocaleString d.createdAt
  let finished :=
    if jsTruthyS d.finishedAt then
      "🏁 Finished: " ++ jsDateLocaleString (d.finishedAt.getD "") ++ "\n"
    else ""
  let suffix :=
    if d.status = some "live" then "\n✅ Deployment is LIVE and ready!"
    else if d.status = some "build_failed" || d.status = some "update_failed" then
      "\n❌ Deployment failed"
    else "\n⏳ Deployment is still in progress..."
  "📊 Deployment Status - RENDER\n\n" ++
  "🆔 Deployment ID: " ++ d.id ++ "\n" ++
  "🔗 Service ID: " ++ id ++ "\n" ++
  "📊 Status: " ++ st ++ "\n" ++
  "🌍 Type: " ++ ty ++ "\n" ++
  "🕐 Created: " ++ created ++ "\n" ++ finished ++ suffix

/-- One line of the list-services render listing (src/unnamed/part_000
lines 738-743), including the 1-based index. -/
def renderServiceLine (idx : Nat) (s : RenderService) : String :=
  let st := if jsTruthyS s.buildCommand then "Has build" else "Static"
  toString (idx + 1) ++ ". 📦 " ++ s.name ++ "\n" ++
  "   🆔 ID: " ++ s.id ++ "\n" ++
  "   🔗 Type: " ++ s.stype ++ "\n" ++
  "   📊 Status: " ++ st ++ "\n\n"

/-- Full text of the list-services render listing. -/
def listServicesText (services : List RenderService) : String :=
  "📋 Available Services - RENDER\n\n" ++
  String.join (services.enum.map (fun p => renderServiceLine p.fst p.snd))

/-- The platform enum `z.enum(["vercel", "render"])` of the SDK tools. -/
inductive Platform where
  | vercel
  | render
deriving DecidableEq

/-- Try-block of the SDK server's check-deployment-status tool handler
(src/unnamed/part_000 lines 647-706): check the platform token, issue one
status call, and render the status text; failures are thrown to the
handler's catch. -/
def checkDeploymentStatusCore (env : Env) (w : World) (platform : Platform)
    (id : String) : Except Failure String × List ProviderCall :=
  match platform with
  | Platform.vercel =>
    if !(jsTruthyS env.vercelToken) then
      (Except.error (Failure.missingCredential "VERCEL_TOKEN"), [])
    else
      match VercelAPI.getDeploymentStatus w id with
      | (Except.ok d, tr) => (Except.ok (vercelStatusText d), tr)
      | (Except.error f, tr) => (Except.error f, tr)
  | Platform.render =>
    if !(jsTruthyS env.renderToken) then
      (Except.error (Failure.missingCredential "RENDER_TOKEN"), [])
    else
      match RenderAPI.getDeploymentStatus w id with
      | (Except.ok d, tr) => (Except.ok (renderStatusText d id), tr)
      | (Except.error f, tr) => (Except.error f, tr)

/-- Try-block of the SDK server's list-services tool handler
(src/unnamed/part_000 lines 723-752): for render, check the token and issue
one listing call; for vercel, return the static warning text with no token
check and no call. -/
def listServicesCore (env : Env) (w : World) (platform : Platform) :
    Except Failure String × List ProviderCall :=
  match platform with
  | Platform.render =>
    if !(jsTruthyS env.renderToken) then
      (Except.error (Failure.missingCredential "RENDER_TOKEN"), [])
    else
      match RenderAPI.getServices w with
      | (Except.ok services, tr) => (Except.ok (listServicesText services), tr)
      | (Except.error f, tr) => (Except.error f, tr)
  | Platform.vercel =>
    (Except.ok ("📋 Available Services - VERCEL\n\n" ++
      "⚠️ Vercel project listing requires additional setup.\n" ++
      "Use project name directly with deploy-vercel tool."), [])

/-- The tool names registered through server.tool in the SDK-based servers of
src/unnamed/part_000 (both the serverless copy and the express copy register
the same set). -/
def sdkToolNames : List String :=
  ["deploy-vercel", "deploy-render", "check-deployment-status", "list-services"]

/-- A tools/call request naming the given tool with the given arguments. -/
def toolsCallReq (toolName : Option String) (args : Option ToolArgs)
    (sid : Option String) (idv : Option RpcId) : McpRequest :=
  ⟨sid, some ⟨some "tools/call", some ⟨toolName, args⟩, idv⟩⟩

/-- A network oracle in which every provider call fails with a plain message. -/
def wNone : World :=
  ⟨fun _ _ => Except.error "network unreachable",
   fun _ => Except.error "network unreachable",
   Except.error "network unreachable",
   fun _ => Except.error "network unreachable",
   fun _ => Except.error "network unreachable"⟩

/-- Sample Vercel deployment data returned by the successful oracle. -/
def sampleVercelDeployment : VercelDeployment :=
  ⟨"dep_1", "demo.example", some "BUILDING", some "production", "1700000000000"⟩

/-- Sample Render deploy data returned by the successful oracle. -/
def sampleRenderDeploy : RenderDeploy :=
  ⟨"dep-r1", some "build_in_progress", "1700000000001", some "web_service", none⟩

/-- Sample Render service listing returned by the successful oracle. -/
def sampleServices : List RenderService :=
  [⟨"srv-1", "my-api", "web_service", some "npm run build"⟩]

/-- A network oracle in which every provider call succeeds with sample data. -/
def wOk : World :=
  ⟨fun _ _ => Except.ok sampleVercelDeployment,
   fun _ => Except.ok sampleRenderDeploy,
   Except.ok sampleServices,
   fun _ => Except.ok sampleVercelDeployment,
   fun _ => Except.ok sampleRenderDeploy⟩

/-- Environment with neither provider token configured. -/
def envNone : Env := ⟨none, none⟩

/-- Environment with both provider tokens configured. -/
def envBoth : Env := ⟨some "vercel-token", some "render-token"⟩

/-- Arguments object with every field absent. -/
def argsEmpty : ToolArgs := ⟨none, none, none, none, none, none, none⟩

/-- A successful outcome of the POST try-block always carries the id field of
the parsed request body, echoed verbatim. -/
theorem postCore_ok_id (env : Env) (w : World) (body : Option ReqBody)
    (r : RpcResult) (i : Option RpcId)
    (h : (postCore env w body).fst = Except.ok ((r, i))) :
    ∃ b, body = some b ∧ i = b.id := by
  cases body with
  | none => simp [postCore] at h
  | some b =>
    refine ⟨b, rfl, ?_⟩
    simp only [postCore] at h
    split at h
    · simp at h
      exact h.2.symm
    · split at h
      · simp at h
        exact h.2.symm
      · split at h
        · split at h
          · simp at h
            exact h.2.symm
          · simp at h
        · simp at h

/-- The Mcp-Session-Id response header is set exactly when the request header
was absent or empty, and then carries the freshly generated identifier. -/
theorem postResp_sessionHeader (env : Env) (w : World) (gen : String)
    (req : McpRequest) :
    (postResp env w gen req).mcpSessionHeader
      = (if jsTruthyS req.sessionId then none else some gen) := by
  unfold postResp postHandler
  cases h : (postCore env w req.body).fst with
  | ok v => obtain ⟨r, i⟩ := v; simp only [h]
  | error f => simp only [h]


/-- C1 counterexample: a parsable POST body with method "nope" and the valid
JSON-RPC id 0 produces an error envelope whose id is null although the body
was parsable and its id was 0 — the catch block computes
`req.body?.id || null`, and JavaScript `||` collapses the falsy id 0 to null. -/
theorem c1_id_counterexample :
    (postResp envNone wNone "g0"
        ⟨some "sess", some ⟨some "nope", none, some (RpcId.num 0)⟩⟩).error.isSome = true
    ∧ (postResp envNone wNone "g0"
        ⟨some "sess", some ⟨some "nope", none, some (RpcId.num 0)⟩⟩).id = some RpcId.null
    ∧ (⟨some "sess", some ⟨some "nope", none, some (RpcId.num 0)⟩⟩ : McpRequest).body ≠ none
    ∧ some RpcId.null ≠ some (RpcId.num 0) := by
  refine ⟨rfl, rfl, by decide, by decide⟩

/-- C1 (amended): every POST envelope contains exactly one of result/error;
a result envelope echoes the parsed body's id field verbatim; an error
envelope's id equals `req.body?.id || null`, i.e. the request id when the
body parsed and the id is JS-truthy, and null otherwise — in particular null
when the request body was unparsable.  The original claim fails only in the
error case for a parsable body with a falsy id (0, "", null). -/
theorem c1_exactly_one_and_id (env : Env) (w : World) (gen : String)
    (req : McpRequest) :
    ((postResp env w gen req).result.isSome ↔ ¬ (postResp env w gen req).error.isSome)
    ∧ ((postResp env w gen req).result.isSome →
        ∃ b, req.body = some b ∧ (postResp env w gen req).id = b.id)
    ∧ ((postResp env w gen req).error.isSome →
        (postResp env w gen req).id = some (errorRespId req.body)) := by
  unfold postResp postHandler
  cases h : (postCore env w req.body).fst with
  | ok v =>
    obtain ⟨r, i⟩ := v
    simp only [h]
    refine ⟨by simp, ?_, by simp⟩
    intro _
    obtain ⟨b, hb, hi⟩ := postCore_ok_id env w req.body r i h
    exact ⟨b, hb, by simpa using hi⟩
  | error f =>
    simp only [h]
    exact ⟨by simp, by simp, by simp⟩

/-- C1 witness: the amended invariant applied at a concrete unknown-method
request whose parsable body carries the falsy id "" yields the null id. -/
theorem c1_witness :
    (postResp envNone wNone "g0"
        ⟨none, some ⟨some "frob", none, some (RpcId.str "")⟩⟩).id = some RpcId.null := by
  have h := (c1_exactly_one_and_id envNone wNone "g0"
      ⟨none, some ⟨some "frob", none, some (RpcId.str "")⟩⟩).2.2 (by decide)
  exact h.trans (by decide)

/-- C2: the POST dispatcher is total over the transport boundary: every
outcome is a status-200 envelope holding a result or a structured
`{code, message}` error rendered from the thrown failure's message, and an
unparsable request body yields the error envelope with id null and no
result. -/
theorem c2_failures_contained (env : Env) (w : World) (gen : String)
    (req : McpRequest) :
    (postResp env w gen req).status = 200
    ∧ ((postResp env w gen req).result.isSome ∨ (postResp env w gen req).error.isSome)
    ∧ (∀ f, (postCore env w req.body).fst = Except.error f →
        (postResp env w gen req).error = some ⟨-32000, f.message⟩)
    ∧ (req.body = none →
        (postResp env w gen req).result = none
        ∧ (postResp env w gen req).error = some ⟨-32000, Failure.malformedBody.message⟩
        ∧ (postResp env w gen req).id = some RpcId.null) := by
  unfold postResp postHandler
  cases h : (postCore env w req.body).fst with
  | ok v =>
    obtain ⟨r, i⟩ := v
    simp only [h]
    refine ⟨by simp, by simp, ?_, ?_⟩
    · intro f hf
      exact absurd hf (by simp)
    · intro hb
      rw [hb] at h
      simp [postCore] at h
  | error f =>
    simp only [h]
    refine ⟨by simp, by simp, ?_, ?_⟩
    · intro g hg
      injection hg with hg2
      rw [hg2]
    · intro hb
      have hf : Failure.malformedBody = f := by
        rw [hb] at h
        simpa [postCore] using h
      subst hf
      refine ⟨by simp, by simp, ?_⟩
      rw [hb]
      rfl

/-- C2 witness: at the concrete unparsable-body request, the dispatcher
produces the error envelope with id null and no result. -/
theorem c2_witness :
    (postResp envNone wNone "g0" ⟨none, none⟩).result = none
    ∧ (postResp envNone wNone "g0" ⟨none, none⟩).id = some RpcId.null := by
  have h := (c2_failures_contained envNone wNone "g0" ⟨none, none⟩).2.2.2 rfl
  exact ⟨h.1, h.2.2⟩

/-- C10: every error envelope produced by the POST dispatcher carries the
constant numeric code -32000, regardless of which failure occurred; the
failure kinds differ only in the message string. -/
theorem c10_error_code_constant (env : Env) (w : World) (gen : String)
    (req : McpRequest) (e : RpcError)
    (h : (postResp env w gen req).error = some e) : e.code = -32000 := by
  cases hc : (postCore env w req.body).fst with
  | ok v =>
    obtain ⟨r, i⟩ := v
    simp only [postResp, postHandler, hc] at h
    exact absurd h (by simp)
  | error f =>
    simp only [postResp, postHandler, hc, Option.some.injEq] at h
    rw [← h]

/-- C10 witness: the error envelope of a concrete unknown-method request has
code -32000. -/
theorem c10_error_code_constant_witness :
    (⟨-32000, "Unknown method: nope"⟩ : RpcError).code = -32000 :=
  c10_error_code_constant envNone wNone "g0"
    ⟨none, some ⟨some "nope", none, some (RpcId.num 3)⟩⟩
    ⟨-32000, "Unknown method: nope"⟩ (by decide)

/-- C7 counterexample: a POST with the unrecognized method "bogus-method" and
id 0 yields the UnknownMethod error envelope, but the original id is not
preserved: `req.body?.id || null` renders the falsy id 0 as null. -/
theorem c7_unknown_method_counterexample :
    (postResp envNone wNone "g0"
        ⟨none, some ⟨some "bogus-method", none, some (RpcId.num 0)⟩⟩).error
      = some ⟨-32000, "Unknown method: bogus-method"⟩
    ∧ (postResp envNone wNone "g0"
        ⟨none, some ⟨some "bogus-method", none, some (RpcId.num 0)⟩⟩).id = some RpcId.null
    ∧ some RpcId.null ≠ some (RpcId.num 0) := by
  refine ⟨by decide, by decide, by decide⟩

/-- C7 (amended): a POST whose method is outside
{initialize, tools/list, tools/call, teardown} yields an error envelope with
message `Unknown method: <m>` (code -32000) and no provider calls; the
original id is preserved when it is present and JS-truthy, and rendered as
null when it is absent or falsy (0, "", null). -/
theorem c7_unknown_method (env : Env) (w : World) (gen : String)
    (sid : Option String) (pp : Option Params) (idv : Option RpcId) (m : String)
    (hm : m ∉ (["initialize", "tools/list", "tools/call", "teardown"] : List String)) :
    (postResp env w gen ⟨sid, some ⟨some m, pp, idv⟩⟩).error
      = some ⟨-32000, "Unknown method: " ++ m⟩
    ∧ postTrace env w gen ⟨sid, some ⟨some m, pp, idv⟩⟩ = []
    ∧ (∀ i, idv = some i → jsTruthyId i = true →
        (postResp env w gen ⟨sid, some ⟨some m, pp, idv⟩⟩).id = some i)
    ∧ ((idv = none ∨ ∃ i, idv = some i ∧ jsTruthyId i = false) →
        (postResp env w gen ⟨sid, some ⟨some m, pp, idv⟩⟩).id = some RpcId.null) := by
  have h1 : m ≠ "initialize" := by intro h; exact hm (by simp [h])
  have h2 : m ≠ "tools/list" := by intro h; exact hm (by simp [h])
  have h3 : m ≠ "tools/call" := by intro h; exact hm (by simp [h])
  have hc : (postCore env w (some ⟨some m, pp, idv⟩)) =
      (Except.error (Failure.unknownMethod (some m)), []) := by
    simp [postCore, h1, h2, h3]
  refine ⟨?_, ?_, ?_, ?_⟩
  · simp only [postResp, postHandler, hc, Failure.message, showOptJs]
  · simp only [postTrace, postHandler, hc]
  · intro i hi ht
    subst hi
    simp only [postResp, postHandler, hc, errorRespId, ht, if_pos]
  · intro hcase
    rcases hcase with hnone | ⟨i, hi, hf⟩
    · subst hnone
      simp only [postResp, postHandler, hc, errorRespId]
    · subst hi
      simp only [postResp, postHandler, hc, errorRespId, hf]
      simp

/-- C7 witness: at a concrete unrecognized method with the truthy id 7, the
error envelope preserves the id. -/
theorem c7_witness :
    (postResp envNone wNone "g0"
        ⟨none, some ⟨some "frobnicate", none, some (RpcId.num 7)⟩⟩).id
      = some (RpcId.num 7) := by
  have h := c7_unknown_method envNone wNone "g0" none none (some (RpcId.num 7))
    "frobnicate" (by decide)
  exact h.2.2.1 (RpcId.num 7) rfl (by decide)

/-- C9 counterexample: a POST that supplies the session identifier "abc-123"
gets no Mcp-Session-Id header on its response — the handler sets the header
only when minting a fresh identifier, so a supplied identifier is not echoed
back. -/
theorem c9_session_counterexample :
    (postResp envNone wNone "fresh-uuid"
        ⟨some "abc-123", some ⟨some "initialize", none, some (RpcId.num 1)⟩⟩).mcpSessionHeader
      = none
    ∧ (⟨some "abc-123", some ⟨some "initialize", none, some (RpcId.num 1)⟩⟩ : McpRequest).sessionId
      = some "abc-123" := by
  refine ⟨by rw [postResp_sessionHeader]; decide, rfl⟩

/-- C9 (amended): on a POST without a (truthy) session identifier, the
freshly generated identifier is surfaced in the Mcp-Session-Id response
header; a supplied identifier is accepted unchanged but not echoed (the
response carries no Mcp-Session-Id header); identifiers minted for two
first-contact requests are distinct whenever the generator yields distinct
values. -/
theorem c9_session_minting (env : Env) (w : World) :
    (∀ gen req, jsTruthyS req.sessionId = false →
        (postResp env w gen req).mcpSessionHeader = some gen)
    ∧ (∀ gen req, jsTruthyS req.sessionId = true →
        (postResp env w gen req).mcpSessionHeader = none)
    ∧ (∀ gen₁ gen₂ req₁ req₂, jsTruthyS req₁.sessionId = false →
        jsTruthyS req₂.sessionId = false → gen₁ ≠ gen₂ →
        (postResp env w gen₁ req₁).mcpSessionHeader
          ≠ (postResp env w gen₂ req₂).mcpSessionHeader) := by
  refine ⟨?_, ?_, ?_⟩
  · intro gen req h
    rw [postResp_sessionHeader, h]
    simp
  · intro gen req h
    rw [postResp_sessionHeader, h]
    simp
  · intro gen₁ gen₂ req₁ req₂ h1 h2 hne
    rw [postResp_sessionHeader, postResp_sessionHeader, h1, h2]
    simpa using hne

/-- C9 witness: a concrete first-contact request surfaces the generated
identifier, and two first-contact requests with distinct generator values
surface distinct identifiers. -/
theorem c9_witness :
    (postResp envNone wNone "uuid-1"
        ⟨none, some ⟨some "initialize", none, some (RpcId.num 1)⟩⟩).mcpSessionHeader
      = some "uuid-1"
    ∧ (postResp envNone wNone "uuid-1"
        ⟨none, some ⟨some "initialize", none, some (RpcId.num 1)⟩⟩).mcpSessionHeader
      ≠ (postResp envNone wNone "uuid-2"
        ⟨none, some ⟨some "initialize", none, some (RpcId.num 1)⟩⟩).mcpSessionHeader := by
  refine ⟨(c9_session_minting envNone wNone).1 "uuid-1" _ (by decide), ?_⟩
  exact (c9_session_minting envNone wNone).2.2 "uuid-1" "uuid-2" _ _
    (by decide) (by decide) (by decide)

/-- Truthiness of an absent string is false. -/
theorem jsTruthyS_none : jsTruthyS none = false := rfl

/-- C4: for every token-requiring tool path — deploy-vercel and deploy-render
in the api/mcp.ts dispatcher, and the SDK servers' check-deployment-status
(both platforms) and list-services (render) — invoking the tool while the
platform's required token is absent (or empty) raises the MissingCredential
failure (message `..._TOKEN environment variable is required`) and issues
zero outbound provider calls. -/
theorem c4_missing_token_no_calls (env : Env) (w : World) (gen : String)
    (sid : Option String) (idv : Option RpcId) (args : ToolArgs) (id : String) :
    (jsTruthyS env.vercelToken = false →
        (postCore env w (toolsCallReq (some "deploy-vercel") (some args) sid idv).body).fst
          = Except.error (Failure.missingCredential "VERCEL_TOKEN")
        ∧ (postResp env w gen (toolsCallReq (some "deploy-vercel") (some args) sid idv)).error
          = some ⟨-32000, "VERCEL_TOKEN environment variable is required"⟩
        ∧ postTrace env w gen (toolsCallReq (some "deploy-vercel") (some args) sid idv) = [])
    ∧ (jsTruthyS env.renderToken = false →
        (postCore env w (toolsCallReq (some "deploy-render") (some args) sid idv).body).fst
          = Except.error (Failure.missingCredential "RENDER_TOKEN")
        ∧ (postResp env w gen (toolsCallReq (some "deploy-render") (some args) sid idv)).error
          = some ⟨-32000, "RENDER_TOKEN environment variable is required"⟩
        ∧ postTrace env w gen (toolsCallReq (some "deploy-render") (some args) sid idv) = [])
    ∧ (jsTruthyS env.vercelToken = false →
        checkDeploymentStatusCore env w Platform.vercel id
          = (Except.error (Failure.missingCredential "VERCEL_TOKEN"), []))
    ∧ (jsTruthyS env.renderToken = false →
        checkDeploymentStatusCore env w Platform.render id
          = (Except.error (Failure.missingCredential "RENDER_TOKEN"), []))
    ∧ (jsTruthyS env.renderToken = false →
        listServicesCore env w Platform.render
          = (Except.error (Failure.missingCredential "RENDER_TOKEN"), [])) := by
  refine ⟨?_, ?_, ?_, ?_, ?_⟩
  · intro h
    have hc : postCore env w (some ⟨some "tools/call",
        some ⟨some "deploy-vercel", some args⟩, idv⟩)
        = (Except.error (Failure.missingCredential "VERCEL_TOKEN"), []) := by
      simp [postCore, toolsCall, h]
    refine ⟨?_, ?_, ?_⟩
    · simp only [toolsCallReq, hc]
    · simp only [postResp, postHandler, toolsCallReq, hc, Failure.message]
      decide
    · simp only [postTrace, postHandler, toolsCallReq, hc]
  · intro h
    have hc : postCore env w (some ⟨some "tools/call",
        some ⟨some "deploy-render", some args⟩, idv⟩)
        = (Except.error (Failure.missingCredential "RENDER_TOKEN"), []) := by
      simp [postCore, toolsCall, h]
    refine ⟨?_, ?_, ?_⟩
    · simp only [toolsCallReq, hc]
    · simp only [postResp, postHandler, toolsCallReq, hc, Failure.message]
      decide
    · simp only [postTrace, postHandler, toolsCallReq, hc]
  · intro h
    simp [checkDeploymentStatusCore, h]
  · intro h
    simp [checkDeploymentStatusCore, h]
  · intro h
    simp [listServicesCore, h]

/-- C4 witness: with no tokens configured, a concrete deploy-vercel call
issues no provider calls, and a concrete render status check fails with
MissingCredential and an empty trace. -/
theorem c4_witness :
    postTrace envNone wOk "g0" (toolsCallReq (some "deploy-vercel") (some argsEmpty) none none)
      = []
    ∧ checkDeploymentStatusCore envNone wOk Platform.render "srv-1"
      = (Except.error (Failure.missingCredential "RENDER_TOKEN"), []) := by
  refine ⟨((c4_missing_token_no_calls envNone wOk "g0" none none argsEmpty "srv-1").1
      (by decide)).2.2, ?_⟩
  exact (c4_missing_token_no_calls envNone wOk "g0" none none argsEmpty "srv-1").2.2.2.1
    (by decide)

/-- C5 counterexample: deploy-vercel invoked without projectName (token
configured) does not fail with a validation error before the provider call —
it issues one createDeployment call with an undefined project name and
returns a success envelope. -/
theorem c5_no_validation_counterexample :
    postTrace envBoth wOk "g0"
        (toolsCallReq (some "deploy-vercel") (some argsEmpty) none (some (RpcId.num 1)))
      = [ProviderCall.vercelCreate none none]
    ∧ (postResp envBoth wOk "g0"
        (toolsCallReq (some "deploy-vercel") (some argsEmpty) none (some (RpcId.num 1)))).error
      = none := by
  refine ⟨by decide, by decide⟩

/-- C5 (amended): the api/mcp.ts tools/call dispatcher performs no
required-parameter validation: deploy-vercel without projectName issues a
provider call with an undefined name; deploy-render without both serviceId
and serviceName issues a trigger call with an undefined service id; the only
declared default applied is branch = "main" (via destructuring) for
deploy-vercel; and a missing arguments object fails only through the
destructuring TypeError, not a ValidationError. -/
theorem c5_no_validation (env : Env) (w : World) (gen : String)
    (sid : Option String) (idv : Option RpcId) (args : ToolArgs) :
    (jsTruthyS env.vercelToken = true → args.projectName = none → args.gitRepo = none →
        postTrace env w gen (toolsCallReq (some "deploy-vercel") (some args) sid idv)
          = [ProviderCall.vercelCreate none none])
    ∧ (∀ r, jsTruthyS env.vercelToken = true → args.gitRepo = some r → r ≠ "" →
        args.branch = none →
        postTrace env w gen (toolsCallReq (some "deploy-vercel") (some args) sid idv)
          = [ProviderCall.vercelCreate args.projectName (some ⟨"github", some r, "main"⟩)])
    ∧ (jsTruthyS env.renderToken = true → args.serviceId = none → args.serviceName = none →
        postTrace env w gen (toolsCallReq (some "deploy-render") (some args) sid idv)
          = [ProviderCall.renderTrigger none])
    ∧ ((postCore env w (toolsCallReq (some "deploy-vercel") none sid idv).body).fst
        = Except.error Failure.malformedArgs) := by
  refine ⟨?_, ?_, ?_, ?_⟩
  · intro ht hp hg
    cases hw : w.vercelCreate none none with
    | ok d =>
      simp [postTrace, postHandler, postCore, toolsCall, toolsCallReq,
        VercelAPI.createDeployment, hw, ht, hp, hg, jsTruthyS_none]
    | error m =>
      simp [postTrace, postHandler, postCore, toolsCall, toolsCallReq,
        VercelAPI.createDeployment, hw, ht, hp, hg, jsTruthyS_none]
  · intro r ht hr hrne hb
    have hrt : jsTruthyS (some r) = true := by simp [jsTruthyS, hrne]
    cases hw : w.vercelCreate args.projectName (some ⟨"github", some r, "main"⟩) with
    | ok d =>
      simp [postTrace, postHandler, postCore, toolsCall, toolsCallReq,
        VercelAPI.createDeployment, hw, ht, hr, hrt, hb]
    | error m =>
      simp [postTrace, postHandler, postCore, toolsCall, toolsCallReq,
        VercelAPI.createDeployment, hw, ht, hr, hrt, hb]
  · intro ht hs hn
    cases hw : w.renderTrigger none with
    | ok d =>
      simp [postTrace, postHandler, postCore, toolsCall, toolsCallReq,
        resolveServiceId, RenderAPI.triggerDeployment, hw, ht, hs, hn, jsTruthyS_none]
    | error m =>
      simp [postTrace, postHandler, postCore, toolsCall, toolsCallReq,
        resolveServiceId, RenderAPI.triggerDeployment, hw, ht, hs, hn, jsTruthyS_none]
  · simp [postCore, toolsCall, toolsCallReq]

/-- C5 witness: a concrete deploy-render call without serviceId and
serviceName issues exactly one trigger call with an undefined service id. -/
theorem c5_witness :
    postTrace envBoth wOk "g1"
        (toolsCallReq (some "deploy-render") (some argsEmpty) none (some (RpcId.num 2)))
      = [ProviderCall.renderTrigger none] := by
  exact (c5_no_validation envBoth wOk "g1" none (some (RpcId.num 2)) argsEmpty).2.2.1
    (by decide) rfl rfl

/-- C3: with the render token configured, deploy-render invoked with only a
(nonempty) serviceName performs exactly one getServices call followed by
exactly one triggerDeployment call on the resolved service id when a service
with that exact name exists, and performs the single getServices call, zero
trigger calls, and fails with the NotFound error (`Service "..." not found`)
when no service matches. -/
theorem c3_deploy_render_by_name (env : Env) (w : World) (gen : String)
    (sid : Option String) (idv : Option RpcId) (args : ToolArgs) (sn : String)
    (htok : jsTruthyS env.renderToken = true)
    (hsid : args.serviceId = none)
    (hsn : args.serviceName = some sn) (hsne : sn ≠ "") :
    (∀ services svc, w.renderList = Except.ok services →
        services.find? (fun s => s.name == sn) = some svc →
        postTrace env w gen (toolsCallReq (some "deploy-render") (some args) sid idv)
          = [ProviderCall.renderList, ProviderCall.renderTrigger (some svc.id)])
    ∧ (∀ services, w.renderList = Except.ok services →
        services.find? (fun s => s.name == sn) = none →
        postTrace env w gen (toolsCallReq (some "deploy-render") (some args) sid idv)
          = [ProviderCall.renderList]
        ∧ (postResp env w gen (toolsCallReq (some "deploy-render") (some args) sid idv)).error
          = some ⟨-32000, "Service \"" ++ sn ++ "\" not found"⟩) := by
  have hst : jsTruthyS (some sn) = true := by simp [jsTruthyS, hsne]
  refine ⟨?_, ?_⟩
  · intro services svc hl hfind
    cases hw : w.renderTrigger (some svc.id) with
    | ok d =>
      simp [postTrace, postHandler, postCore, toolsCall, toolsCallReq, resolveServiceId,
        RenderAPI.getServices, RenderAPI.triggerDeployment, hl, hfind, hw, htok,
        hsid, hsn, hst, jsTruthyS_none]
    | error m =>
      simp [postTrace, postHandler, postCore, toolsCall, toolsCallReq, resolveServiceId,
        RenderAPI.getServices, RenderAPI.triggerDeployment, hl, hfind, hw, htok,
        hsid, hsn, hst, jsTruthyS_none]
  · intro services hl hfind
    constructor
    · simp [postTrace, postHandler, postCore, toolsCall, toolsCallReq, resolveServiceId,
        RenderAPI.getServices, hl, hfind, htok, hsid, hsn, hst, jsTruthyS_none]
    · simp [postResp, postHandler, postCore, toolsCall, toolsCallReq, resolveServiceId,
        RenderAPI.getServices, hl, hfind, htok, hsid, hsn, hst, jsTruthyS_none,
        Failure.message]

/-- C3 witness: a concrete name-only deploy-render call against the sample
service list produces exactly the listing call then the trigger call. -/
theorem c3_witness :
    postTrace envBoth wOk "g0"
        (toolsCallReq (some "deploy-render")
          (some ⟨none, none, none, none, some "my-api", none, none⟩) none (some (RpcId.num 1)))
      = [ProviderCall.renderList, ProviderCall.renderTrigger (some "srv-1")] := by
  have h := (c3_deploy_render_by_name envBoth wOk "g0" none (some (RpcId.num 1))
      ⟨none, none, none, none, some "my-api", none, none⟩ "my-api"
      (by decide) rfl rfl (by decide)).1
  exact h sampleServices ⟨"srv-1", "my-api", "web_service", some "npm run build"⟩ rfl (by decide)

/-- The name-resolution step can fail with a provider error or NotFound, but
never with UnknownTool. -/
theorem resolveServiceId_fst_not_unknownTool (w : World) (sid snm : Option String)
    (x : Option String) :
    (resolveServiceId w sid snm).fst ≠ Except.error (Failure.unknownTool x) := by
  unfold resolveServiceId
  cases hc : (!(jsTruthyS sid) && jsTruthyS snm) with
  | false => simp [hc]
  | true =>
    cases hl : w.renderList with
    | ok ss =>
      cases hf : ss.find? (fun s => s.name == snm.getD "") with
      | none => simp [hc, RenderAPI.getServices, hl, hf]
      | some svc => simp [hc, RenderAPI.getServices, hl, hf]
    | error m => simp [hc, RenderAPI.getServices, hl]

/-- The deploy-vercel branch never raises UnknownTool. -/
theorem toolsCall_vercel_not_unknownTool (env : Env) (w : World)
    (args : Option ToolArgs) (x : Option String) :
    (toolsCall env w (some ⟨some "deploy-vercel", args⟩)).fst
      ≠ Except.error (Failure.unknownTool x) := by
  cases args with
  | none => simp [toolsCall]
  | some a =>
    cases ht : jsTruthyS env.vercelToken with
    | false => simp [toolsCall, ht]
    | true =>
      cases hg : jsTruthyS a.gitRepo with
      | false =>
        cases hw : w.vercelCreate a.projectName none with
        | ok d => simp [toolsCall, VercelAPI.createDeployment, ht, hg, hw]
        | error m => simp [toolsCall, VercelAPI.createDeployment, ht, hg, hw]
      | true =>
        cases hw : w.vercelCreate a.projectName
            (some ⟨"github", a.gitRepo, a.branch.getD "main"⟩) with
        | ok d => simp [toolsCall, VercelAPI.createDeployment, ht, hg, hw]
        | error m => simp [toolsCall, VercelAPI.createDeployment, ht, hg, hw]

/-- The deploy-render branch never raises UnknownTool. -/
theorem toolsCall_render_not_unknownTool (env : Env) (w : World)
    (args : Option ToolArgs) (x : Option String) :
    (toolsCall env w (some ⟨some "deploy-render", args⟩)).fst
      ≠ Except.error (Failure.unknownTool x) := by
  cases args with
  | none => simp [toolsCall]
  | some a =>
    cases ht : jsTruthyS env.renderToken with
    | false => simp [toolsCall, ht]
    | true =>
      rcases hrs : resolveServiceId w a.serviceId a.serviceName with ⟨res, tr⟩
      cases res with
      | error f =>
        have h2 := resolveServiceId_fst_not_unknownTool w a.serviceId a.serviceName x
        rw [hrs] at h2
        simpa [toolsCall, ht, hrs] using h2
      | ok actual =>
        cases hw : w.renderTrigger actual with
        | ok d => simp [toolsCall, RenderAPI.triggerDeployment, ht, hrs, hw]
        | error m => simp [toolsCall, RenderAPI.triggerDeployment, ht, hrs, hw]

/-- C6: a tools/call naming tool n is rejected with UnknownTool exactly when
n is not among the tool names enumerated by the tools/list branch — the
listed set {deploy-vercel, deploy-render} coincides with the dispatchable
set. -/
theorem c6_list_matches_dispatch (env : Env) (w : World) (p : Params) (n : String)
    (hn : p.name = some n) :
    ((toolsCall env w (some p)).fst = Except.error (Failure.unknownTool (some n)) ↔
      n ∉ mcpToolDescriptors.map ToolDescriptor.name) := by
  obtain ⟨pn, pargs⟩ := p
  simp only at hn
  subst hn
  have hlist : mcpToolDescriptors.map ToolDescriptor.name
      = ["deploy-vercel", "deploy-render"] := rfl
  rw [hlist]
  by_cases hv : n = "deploy-vercel"
  · subst hv
    exact ⟨fun h => absurd h (toolsCall_vercel_not_unknownTool env w pargs _),
           fun hmem => absurd (by simp) hmem⟩
  · by_cases hr : n = "deploy-render"
    · subst hr
      exact ⟨fun h => absurd h (toolsCall_render_not_unknownTool env w pargs _),
             fun hmem => absurd (by simp) hmem⟩
    · have hc : toolsCall env w (some ⟨some n, pargs⟩)
          = (Except.error (Failure.unknownTool (some n)), []) := by
        simp [toolsCall, hv, hr]
      simp [hc, hv, hr]

/-- C6 witness: a concrete undeclared tool name is rejected as UnknownTool. -/
theorem c6_witness :
    (toolsCall envNone wNone (some ⟨some "bogus", none⟩)).fst
      = Except.error (Failure.unknownTool (some "bogus")) := by
  exact (c6_list_matches_dispatch envNone wNone ⟨some "bogus", none⟩ "bogus" rfl).mpr
    (by decide)

/-- C8 counterexample: the api/mcp.ts tools/call dispatch rejects
check-deployment-status and list-services (with valid arguments and both
tokens configured) as unknown tools. -/
theorem c8_extra_tools_counterexample :
    (toolsCall envBoth wOk
        (some ⟨some "check-deployment-status",
          some ⟨none, none, none, none, none, some "render", some "srv-1"⟩⟩)).fst
      = Except.error (Failure.unknownTool (some "check-deployment-status"))
    ∧ (toolsCall envBoth wOk
        (some ⟨some "list-services",
          some ⟨none, none, none, none, none, some "render", none⟩⟩)).fst
      = Except.error (Failure.unknownTool (some "list-services")) := by
  exact ⟨rfl, rfl⟩

/-- C8 (amended): the api/mcp.ts dispatcher rejects check-deployment-status
and list-services as unknown tools; all four declared names are registered
only in the SDK-based servers of src/unnamed/part_000, whose handlers do
process check-deployment-status and list-services (shown here for the render
platform: one status call, resp. one listing call, and rendered text). -/
theorem c8_tool_surface (env : Env) (w : World) (args : Option ToolArgs) (id : String) :
    ((toolsCall env w (some ⟨some "check-deployment-status", args⟩)).fst
      = Except.error (Failure.unknownTool (some "check-deployment-status")))
    ∧ ((toolsCall env w (some ⟨some "list-services", args⟩)).fst
      = Except.error (Failure.unknownTool (some "list-services")))
    ∧ sdkToolNames
      = ["deploy-vercel", "deploy-render", "check-deployment-status", "list-services"]
    ∧ (∀ d, jsTruthyS env.renderToken = true → w.renderStatus id = Except.ok d →
        checkDeploymentStatusCore env w Platform.render id
          = (Except.ok (renderStatusText d id), [ProviderCall.renderStatus id]))
    ∧ (∀ services, jsTruthyS env.renderToken = true → w.renderList = Except.ok services →
        listServicesCore env w Platform.render
          = (Except.ok (listServicesText services), [ProviderCall.renderList])) := by
  refine ⟨by simp [toolsCall], by simp [toolsCall], rfl, ?_, ?_⟩
  · intro d ht hw
    simp [checkDeploymentStatusCore, RenderAPI.getDeploymentStatus, ht, hw]
  · intro services ht hl
    simp [listServicesCore, RenderAPI.getServices, ht, hl]

/-- C8 witness: the SDK check-deployment-status handler processes a concrete
render status request with one provider call. -/
theorem c8_witness :
    checkDeploymentStatusCore envBoth wOk Platform.render "srv-1"
      = (Except.ok (renderStatusText sampleRenderDeploy "srv-1"),
         [ProviderCall.renderStatus "srv-1"]) := by
  exact (c8_tool_surface envBoth wOk none "srv-1").2.2.2.1 sampleRenderDeploy
    (by decide) rfl
